import Mathlib

/-!
Verification of the container-handler and filesystem/load accounting core of
the cadvisor fork (packages raw, docker, netlink).  Each Go function relevant
to the checked claims is shallowly embedded as an executable Lean definition;
external collaborators (the docker control-plane client, the filesystem on
disk, the time parser, the netlink socket) are passed in as explicit oracle
arguments so the embedded control flow stays exactly that of the source.
-/

set_option maxHeartbeats 1000000

/-- Model of Go path.Join: non-empty components joined with a slash.  All
call sites embedded below pass already-clean components, on which Go's
trailing Clean is the identity. -/
def pathJoin (elems : List String) : String :=
  String.intercalate "/" (elems.filter (fun s => s ≠ ""))

/-- Model of Go strings.HasPrefix(s, p), computed on the character lists so
that concrete instances evaluate inside the kernel. -/
def goHasPrefix (s p : String) : Bool :=
  p.data.isPrefixOf s.data

/-- Modulus of Go uint64 arithmetic. -/
def uint64Mod : Nat := 2 ^ 64

/-- Output of the filesystem usage sampler / corrector (fs.FsUsage with
uint64 fields modelled as naturals below 2 to the 64). -/
structure FsUsage where
  baseUsageBytes : Nat
  totalUsageBytes : Nat
  inodeUsage : Nat
deriving DecidableEq, Repr

/-- Docker storage drivers named by the handler source; drivers outside the
named set are carried as their raw string (the Go type is a string). -/
inductive StorageDriver where
  | aufs
  | devicemapper
  | overlay
  | overlay2
  | zfs
  | otherDriver (s : String)
deriving DecidableEq, Repr

/-- String conversion of a storage driver, as Go string(sd). -/
def StorageDriver.toString : StorageDriver → String
  | .aufs => "aufs"
  | .devicemapper => "devicemapper"
  | .overlay => "overlay"
  | .overlay2 => "overlay2"
  | .zfs => "zfs"
  | .otherDriver s => s

/-- Docker control-plane version: positions 0 and 1 of the version slice
that newDockerContainerHandler receives (the only positions it indexes). -/
structure DockerVersion where
  major : Int
  minor : Int
deriving DecidableEq, Repr

/-- Writable-layer subdirectory of the aufs driver (source constant). -/
def aufsRWLayer : String := "diff"

/-- Writable-layer subdirectory of the overlay driver (source constant). -/
def overlayRWLayer : String := "upper"

/-- Writable-layer subdirectory of the overlay2 driver (source constant). -/
def overlay2RWLayer : String := "diff"

/-- Directory under the storage dir where docker keeps container logs. -/
def pathToContainersDir : String := "containers"

/-- Embeds getRwLayerID.  The filesystem is the oracle fileRead: some s means
ioutil.ReadFile succeeded with contents s, none means it failed.  Docker
versions at least 1.10.0 store a randomized mount id in the layerdb mounts
file; the source guard is major at most 1 AND minor below 10. -/
def getRwLayerID (fileRead : String → Option String)
    (containerID storageDir : String) (sd : StorageDriver)
    (dockerVersion : DockerVersion) : Except String String :=
  if dockerVersion.major ≤ 1 ∧ dockerVersion.minor < 10 then
    .ok containerID
  else
    match fileRead (pathJoin [storageDir, "image", sd.toString, "layerdb",
        "mounts", containerID, "mount-id"]) with
    | some s => .ok s
    | none => .error ("failed to identify the read-write layer ID for container "
        ++ containerID)

/-- Metric kinds referenced by the embedded code (container.MetricKind). -/
inductive MetricKind where
  | networkUsage
  | diskUsage
  | diskIo
  | otherMetric (s : String)
deriving DecidableEq, Repr, BEq

/-- Set of enabled metrics (container.MetricSet), modelled as a list with
membership test. -/
abbrev MetricSet := List MetricKind

/-- Network statistics sub-record of a stats sample (info.NetworkStats);
only the cumulative byte counters are modelled, which is enough to observe
whether the record is the zero value. -/
structure NetworkStats where
  rxBytes : Nat := 0
  txBytes : Nat := 0
deriving DecidableEq, Repr

/-- Zero value of the network sub-record, as Go info.NetworkStats with
brace-empty literal. -/
def NetworkStats.zero : NetworkStats := {}

/-- Filesystem statistics sub-record (info.FsStats fields touched by the
docker handler). -/
structure FsStats where
  device : String
  fsType : String
  limit : Nat
  baseUsage : Nat
  usage : Nat
  inodes : Nat
deriving DecidableEq, Repr

/-- One stats sample (info.ContainerStats restricted to the sub-records the
embedded code reads or writes). -/
structure ContainerStats where
  network : NetworkStats
  filesystem : List FsStats
deriving DecidableEq, Repr

/-- One machine-inventory filesystem entry (info.FsInfo fields the handler
reads). -/
structure MachineFsInfo where
  device : String
  fsType : String
  capacity : Nat
deriving DecidableEq, Repr

/-- Machine information restricted to the filesystem inventory, the part
getFsStats consults. -/
structure MachineInfo where
  filesystems : List MachineFsInfo
deriving DecidableEq, Repr

/-- Composite docker filesystem handler (dockerFsHandler).  The wrapped
common.FsHandler sampler is modelled by the snapshot its Usage call returns;
each optional watcher is modelled by its GetUsage query function. -/
structure DockerFsHandler where
  fsHandler : FsUsage
  thinPoolWatcher : Option (String → Except String Nat)
  deviceID : String
  zfsWatcher : Option (String → Except String Nat)
  zfsFilesystem : String

/-- Embeds dockerFsHandler.Usage: start from the sampler baseline; a
configured thin-pool watcher that answers successfully replaces the base
usage and adds onto the total usage (uint64 addition); on error the baseline
is kept and the failure only logged.  The zfs watcher behaves symmetrically. -/
def DockerFsHandler.Usage (h : DockerFsHandler) : FsUsage :=
  let usage := h.fsHandler
  let usage :=
    match h.thinPoolWatcher with
    | none => usage
    | some getUsage =>
      match getUsage h.deviceID with
      | .error _ => usage
      | .ok thinPoolUsage =>
        { usage with
          baseUsageBytes := thinPoolUsage
          totalUsageBytes := (usage.totalUsageBytes + thinPoolUsage) % uint64Mod }
  match h.zfsWatcher with
  | none => usage
  | some getUsage =>
    match getUsage h.zfsFilesystem with
    | .error _ => usage
    | .ok zfsUsage =>
      { usage with
        baseUsageBytes := zfsUsage
        totalUsageBytes := (usage.totalUsageBytes + zfsUsage) % uint64Mod }

/-- Embeds dockercontainer.NetworkMode.IsContainer: the mode string starts
with the literal container: marker. -/
def networkModeIsContainer (mode : String) : Bool :=
  goHasPrefix mode "container:"

/-- Container identity (info.ContainerReference fields set by the handler);
ns is the originating runtime namespace (Namespace in the source). -/
structure ContainerReference where
  id : String
  name : String
  aliases : List String
  ns : String
deriving DecidableEq, Repr

/-- Docker runtime namespace tag (DockerNamespace in the factory). -/
def DockerNamespace : String := "docker"

/-- The docker container handler state (dockerContainerHandler fields the
embedded operations read).  The libcontainer stats collaborator and cgroup
manager are external and enter GetStats as oracle arguments instead. -/
structure DockerContainerHandler where
  rootfsStorageDir : String
  creationTime : Int
  networkMode : String
  includedMetrics : MetricSet
  poolName : String
  zfsParent : String
  storageDriver : StorageDriver
  fsHandler : Option DockerFsHandler
  ipAddress : String
  reference : ContainerReference
  labels : List (String × String)
  envs : List (String × String)
  image : String

/-- Embeds dockerContainerHandler.needNet: network stats are wanted only
when network-usage metrics are enabled and the container does not run inside
another container's network namespace. -/
def DockerContainerHandler.needNet (self : DockerContainerHandler) : Bool :=
  if self.includedMetrics.contains .networkUsage then
    !(networkModeIsContainer self.networkMode)
  else
    false

/-- Embeds dockerContainerHandler.getFsStats.  machineInfo is the result of
the GetMachineInfo collaborator, dirFsDevice that of fsInfo.GetDirFsDevice.
The disk-io device-naming step delegates entirely to an external collaborator
and touches no field modelled here.  A none result models the nil
fsHandler dereference Go would panic on (unreachable when the handler was
built with disk-usage metrics enabled). -/
def DockerContainerHandler.getFsStats (self : DockerContainerHandler)
    (machineInfo : Except String MachineInfo)
    (dirFsDevice : String → Except String String)
    (stats : ContainerStats) : Option (Except String ContainerStats) :=
  match machineInfo with
  | .error e => some (.error e)
  | .ok mi =>
    if !(self.includedMetrics.contains .diskUsage) then
      some (.ok stats)
    else
      let deviceRes : Except String (Option String) :=
        match self.storageDriver with
        | .devicemapper => .ok (some self.poolName)
        | .aufs | .overlay | .overlay2 =>
          match dirFsDevice self.rootfsStorageDir with
          | .error e => .error ("unable to determine device info for dir: "
              ++ self.rootfsStorageDir ++ ": " ++ e)
          | .ok d => .ok (some d)
        | .zfs => .ok (some self.zfsParent)
        | .otherDriver _ => .ok none
      match deviceRes with
      | .error e => some (.error e)
      | .ok none => some (.ok stats)
      | .ok (some device) =>
        let found := mi.filesystems.find? (fun f => f.device = device)
        let limit := (found.map (fun f => f.capacity)).getD 0
        let fsType := (found.map (fun f => f.fsType)).getD ""
        match self.fsHandler with
        | none => none
        | some fh =>
          let usage := fh.Usage
          let fsStat : FsStats :=
            { device := device, fsType := fsType, limit := limit,
              baseUsage := usage.baseUsageBytes,
              usage := usage.totalUsageBytes,
              inodes := usage.inodeUsage }
          some (.ok { stats with filesystem := stats.filesystem ++ [fsStat] })

/-- Embeds dockerContainerHandler.GetStats.  libStats is the outcome of the
libcontainer collaborator's GetStats call.  Containers without their own
network namespace get a zeroed network sub-record; then the filesystem
sub-record is overlaid. -/
def DockerContainerHandler.GetStats (self : DockerContainerHandler)
    (libStats : Except String ContainerStats)
    (machineInfo : Except String MachineInfo)
    (dirFsDevice : String → Except String String) :
    Option (Except String ContainerStats) :=
  match libStats with
  | .error e => some (.error e)
  | .ok stats =>
    let stats := if !self.needNet then { stats with network := {} } else stats
    self.getFsStats machineInfo dirFsDevice stats

/-- Subset of the docker inspection result (types.ContainerJSON) read by
newDockerContainerHandler. -/
structure InspectResult where
  created : String
  ctnrName : String
  image : String
  labels : List (String × String)
  env : List String
  restartCount : Int
  networkMode : String
  ipAddress : String
  graphDriverDeviceID : String

/-- Model of Go strings.SplitN(s, sep, 2): at most two pieces, the second
keeping any further separators. -/
def splitN2 (s sep : String) : List String :=
  match s.splitOn sep with
  | [] => []
  | [x] => [x]
  | x :: rest => [x, String.intercalate sep rest]

/-- Model of Go strings.TrimPrefix for one leading slash. -/
def trimLeadingSlash (s : String) : String :=
  if goHasPrefix s "/" then s.drop 1 else s

/-- Writable-layer directory switch of newDockerContainerHandler (the switch
on storageDriver): yields rootfsStorageDir, zfsFilesystem and zfsParent.
zfsStatusParent is the parent-dataset entry of the docker Status oracle,
consulted only by the zfs branch. -/
def rwLayerDirs (sd : StorageDriver) (storageDir rwLayerID : String)
    (zfsStatusParent : Except String String) :
    Except String (String × String × String) :=
  match sd with
  | .aufs => .ok (pathJoin [storageDir, StorageDriver.toString .aufs, aufsRWLayer, rwLayerID], "", "")
  | .overlay => .ok (pathJoin [storageDir, StorageDriver.toString .overlay, rwLayerID, overlayRWLayer], "", "")
  | .overlay2 => .ok (pathJoin [storageDir, StorageDriver.toString .overlay2, rwLayerID, overlay2RWLayer], "", "")
  | .zfs =>
    match zfsStatusParent with
    | .error e => .error ("unable to determine docker status: " ++ e)
    | .ok zfsParent => .ok ("", pathJoin [zfsParent, rwLayerID], zfsParent)
  | _ => .ok ("", "", "")

/-- Embeds newDockerContainerHandler.  Oracles: nameToId is
ContainerNameToDockerId from the factory; fileRead is the on-disk mount-id
mapping; inspect is client.ContainerInspect keyed by container id; parseTime
is time.Parse with the RFC3339Nano layout (none when unparsable; the parsed
instant is carried as an integer); zfsStatusParent is the parent-dataset
driver-status entry.  Go's env map keyed by lowered name is modelled as an
association list built in iteration order. -/
def newDockerContainerHandler
    (nameToId : String → String)
    (fileRead : String → Option String)
    (inspect : String → Except String InspectResult)
    (parseTime : String → Option Int)
    (zfsStatusParent : Except String String)
    (name : String) (sd : StorageDriver) (storageDir : String)
    (inHostNamespace : Bool) (metadataEnvs : List String)
    (dockerVersion : DockerVersion) (includedMetrics : MetricSet)
    (thinPoolName : String)
    (thinPoolWatcher : Option (String → Except String Nat))
    (zfsWatcher : Option (String → Except String Nat)) :
    Except String DockerContainerHandler :=
  let storageDir := if inHostNamespace then storageDir
    else pathJoin ["/rootfs", storageDir]
  let id := nameToId name
  match getRwLayerID fileRead id storageDir sd dockerVersion with
  | .error e => .error e
  | .ok rwLayerID =>
    match rwLayerDirs sd storageDir rwLayerID zfsStatusParent with
    | .error e => .error e
    | .ok (rootfsStorageDir, zfsFilesystem, zfsParent) =>
      match inspect id with
      | .error e => .error ("failed to inspect container " ++ id ++ ": " ++ e)
      | .ok ctnr =>
        match parseTime ctnr.created with
        | none => .error ("failed to parse the create timestamp " ++ ctnr.created
            ++ " for container " ++ id)
        | some creationTime =>
          let labels := if ctnr.restartCount > 0 then
              ctnr.labels ++ [("restartcount", toString ctnr.restartCount)]
            else ctnr.labels
          let ipRes : Except String String :=
            if ctnr.ipAddress = "" ∧ networkModeIsContainer ctnr.networkMode then
              match inspect (ctnr.networkMode.drop "container:".length) with
              | .error e => .error ("failed to inspect container " ++ id ++ ": " ++ e)
              | .ok c => .ok c.ipAddress
            else .ok ctnr.ipAddress
          match ipRes with
          | .error e => .error e
          | .ok ipAddress =>
            let fsHandler : Option DockerFsHandler :=
              if includedMetrics.contains .diskUsage then
                some { fsHandler := ⟨0, 0, 0⟩,
                       thinPoolWatcher := thinPoolWatcher,
                       deviceID := ctnr.graphDriverDeviceID,
                       zfsWatcher := zfsWatcher,
                       zfsFilesystem := zfsFilesystem }
              else none
            let envs := metadataEnvs.foldl (fun acc exposedEnv =>
              ctnr.env.foldl (fun acc envVar =>
                if envVar ≠ "" then
                  match splitN2 envVar "=" with
                  | [k, v] => if k = exposedEnv then
                      acc ++ [(exposedEnv.toLower, v)] else acc
                  | _ => acc
                else acc) acc) []
            .ok { rootfsStorageDir := rootfsStorageDir,
                  creationTime := creationTime,
                  networkMode := ctnr.networkMode,
                  includedMetrics := includedMetrics,
                  poolName := thinPoolName,
                  zfsParent := zfsParent,
                  storageDriver := sd,
                  fsHandler := fsHandler,
                  ipAddress := ipAddress,
                  reference := { id := id, name := name,
                                 aliases := [trimLeadingSlash ctnr.ctnrName, id],
                                 ns := DockerNamespace },
                  labels := labels,
                  envs := envs,
                  image := ctnr.image }

/-- Embeds rawFactory.CanHandleAndAccept.  The boolean dockerOnly stands for
the docker_only flag, wl for the rawPrefixWhiteList slice.  The result pair
is (canHandle, shouldAccept); a none result models the out-of-bounds index
of element 0 on an empty whitelist (a Go runtime panic).  The error return
of the source is always nil and therefore not modelled. -/
def rawCanHandleAndAccept (dockerOnly : Bool) (wl : List String)
    (name : String) : Option (Bool × Bool) :=
  if name = "/" then
    some (true, true)
  else if dockerOnly then
    match wl with
    | [] => none
    | w0 :: _ =>
      if w0 = "" then some (true, false)
      else some (true, wl.any fun p => goHasPrefix name p)
  else
    some (true, wl.any fun p => goHasPrefix name p)

/-- Load statistics record (info.LoadStats). -/
structure LoadStats where
  nrSleeping : Nat
  nrRunning : Nat
  nrStopped : Nat
  nrUninterruptible : Nat
  nrIoWait : Nat
deriving DecidableEq, Repr

/-- Zero value of the load statistics record. -/
def LoadStats.zero : LoadStats := ⟨0, 0, 0, 0, 0⟩

/-- Observable kernel interactions of one GetCpuLoad call. -/
inductive KernelEffect where
  | openFile (path : String)
  | netlinkQuery
deriving DecidableEq, Repr

/-- Embeds NetlinkReader.GetCpuLoad together with its trace of kernel
interactions.  openResult is the os.Open oracle, loadStatsResult the outcome
of the getLoadStats netlink round-trip.  The Go function returns the pair of
a load-stats value (zero on every error path) and an error. -/
def getCpuLoad (openResult : String → Except String Unit)
    (loadStatsResult : Except String LoadStats)
    (containerName path : String) : (LoadStats × Option String) × List KernelEffect :=
  if path.length = 0 then
    ((LoadStats.zero, some "cgroup path can not be empty!"), [])
  else
    match openResult path with
    | .error _ => ((LoadStats.zero, some ("failed to open cgroup path " ++ path)),
        [.openFile path])
    | .ok _ =>
      match loadStatsResult with
      | .error e => ((LoadStats.zero, some e), [.openFile path, .netlinkQuery])
      | .ok stats => ((stats, none), [.openFile path, .netlinkQuery])

/-- Success observer for the Go (value, error) return convention: a Go
function returning a non-nil error together with a nil handler is modelled
by an error result, so exceptIsOk r is false exactly when an error and no
value is produced. -/
def exceptIsOk {α : Type} : Except String α → Bool
  | .ok _ => true
  | .error _ => false

/-- Claim C6: GetCpuLoad with an empty path errors immediately: for every
open oracle and netlink oracle it returns the zero load-stats value paired
with an error and records no kernel interaction at all. -/
theorem getCpuLoad_rejects_empty_path
    (openResult : String → Except String Unit)
    (loadStatsResult : Except String LoadStats) (containerName : String) :
    getCpuLoad openResult loadStatsResult containerName "" =
      ((LoadStats.zero, some "cgroup path can not be empty!"), []) := rfl

/-- Claim C3, counterexample: with the runtime-only flag enabled and the
whitelist holding the single empty entry, the name /other does match a
prefix in the allow-list (the empty string is a prefix of everything), yet
the factory rejects it — refuting the claim's clause that any name matching
an allow-list prefix is accepted. -/
theorem raw_accept_empty_first_entry_counterexample :
    ("" ∈ ([""] : List String) ∧ goHasPrefix "/other" "" = true) ∧
    rawCanHandleAndAccept true [""] "/other" = some (true, false) := by decide

/-- Claim C3 (amended): canHandle is always true; shouldAccept is true for
the root container unconditionally; otherwise, when the runtime-only flag is
enabled and the first allow-list entry is the empty string, shouldAccept is
false regardless of prefix matches; otherwise shouldAccept is true exactly
when some allow-list entry is a string prefix of the name.  The scenario
instances hold: with runtime-only enabled and the empty whitelist
representation, the root is accepted and /other rejected, with no error. -/
theorem raw_canHandleAndAccept_characterization (dockerOnly : Bool)
    (w0 : String) (rest : List String) (name : String) :
    rawCanHandleAndAccept dockerOnly (w0 :: rest) name =
      some (true,
        if name = "/" then true
        else if dockerOnly = true ∧ w0 = "" then false
        else (w0 :: rest).any fun p => goHasPrefix name p) ∧
    rawCanHandleAndAccept true [""] "/" = some (true, true) ∧
    rawCanHandleAndAccept true [""] "/other" = some (true, false) := by
  refine ⟨?_, by decide, by decide⟩
  by_cases h1 : name = "/" <;> by_cases h0 : w0 = "" <;>
    cases dockerOnly <;> simp [rawCanHandleAndAccept, h1, h0]

/-- Claim C9: the empty-whitelist panic branch is reachable (runtime-only
enabled, non-root name, zero-length allow-list indexes element 0 of an empty
slice), and with a non-empty allow-list the operation always returns a
value, for every flag setting and name. -/
theorem raw_canHandleAndAccept_totality (dockerOnly : Bool) (w0 : String)
    (rest : List String) (name : String) :
    rawCanHandleAndAccept true [] "/other" = none ∧
    (rawCanHandleAndAccept dockerOnly (w0 :: rest) name).isSome = true := by
  refine ⟨by decide, ?_⟩
  by_cases h1 : name = "/" <;> by_cases h0 : w0 = "" <;>
    cases dockerOnly <;> simp [rawCanHandleAndAccept, h1, h0]

/-- Claim C5, counterexample: docker version 2.5 has minor component below
10, yet the mount identifier is not the container id — the code consults the
mapping file (here failing), because its fast path additionally requires the
major component to be at most 1. -/
theorem getRwLayerID_minor_threshold_counterexample :
    ((5 : Int) < 10 ∧
      getRwLayerID (fun _ => none) "abc123" "/var/lib/docker" .overlay2 ⟨2, 5⟩ =
        .error "failed to identify the read-write layer ID for container abc123") :=
  ⟨by decide, rfl⟩

/-- Claim C5 (amended): when the version has major at most 1 and minor below
10 the container id itself is the mount identifier and no file is consulted
(the result is independent of the filesystem oracle); for any other version
the identifier is read from storageDir/image/driver/layerdb/mounts/id/mount-id,
and a failed read fails the resolution with an error. -/
theorem getRwLayerID_version_threshold (fileRead : String → Option String)
    (containerID storageDir : String) (sd : StorageDriver) (v : DockerVersion) :
    (v.major ≤ 1 ∧ v.minor < 10 →
       getRwLayerID fileRead containerID storageDir sd v = .ok containerID) ∧
    (¬(v.major ≤ 1 ∧ v.minor < 10) →
       (∀ s, fileRead (pathJoin [storageDir, "image", sd.toString, "layerdb",
            "mounts", containerID, "mount-id"]) = some s →
          getRwLayerID fileRead containerID storageDir sd v = .ok s) ∧
       (fileRead (pathJoin [storageDir, "image", sd.toString, "layerdb",
            "mounts", containerID, "mount-id"]) = none →
          ∃ e, getRwLayerID fileRead containerID storageDir sd v = .error e)) := by
  constructor
  · intro h
    simp [getRwLayerID, h]
  · intro h
    constructor
    · intro s hs
      simp [getRwLayerID, h, hs]
    · intro hn
      refine ⟨"failed to identify the read-write layer ID for container "
        ++ containerID, ?_⟩
      simp [getRwLayerID, h, hn]

/-- Witness for the version-threshold theorem: version 1.9 returns the bare
container id even when every file read fails. -/
theorem getRwLayerID_version_threshold_witness :
    getRwLayerID (fun _ => none) "abc123" "/var/lib/docker" .overlay2 ⟨1, 9⟩ =
      .ok "abc123" :=
  (getRwLayerID_version_threshold (fun _ => none) "abc123" "/var/lib/docker"
    .overlay2 ⟨1, 9⟩).1 (by decide)

/-- Claim C2: for every sampler baseline, a configured watcher whose query
succeeds with value v makes the corrected snapshot have base v, total equal
to the baseline total plus v (below the uint64 modulus) and unchanged
inodes; a failing query leaves the baseline untouched.  Both the thin-pool
and the copy-on-write (zfs) watcher behave this way. -/
theorem dockerFsHandler_usage_overlay (B : FsUsage) (dev zf : String)
    (w : String → Except String Nat) :
    (∀ v, w dev = .ok v → B.totalUsageBytes + v < uint64Mod →
       DockerFsHandler.Usage ⟨B, some w, dev, none, zf⟩ =
         ⟨v, B.totalUsageBytes + v, B.inodeUsage⟩) ∧
    (∀ e, w dev = .error e →
       DockerFsHandler.Usage ⟨B, some w, dev, none, zf⟩ = B) ∧
    (∀ v, w zf = .ok v → B.totalUsageBytes + v < uint64Mod →
       DockerFsHandler.Usage ⟨B, none, dev, some w, zf⟩ =
         ⟨v, B.totalUsageBytes + v, B.inodeUsage⟩) ∧
    (∀ e, w zf = .error e →
       DockerFsHandler.Usage ⟨B, none, dev, some w, zf⟩ = B) := by
  obtain ⟨b, t, i⟩ := B
  refine ⟨?_, ?_, ?_, ?_⟩
  · intro v hv hlt
    simp [DockerFsHandler.Usage, hv, Nat.mod_eq_of_lt hlt]
  · intro e he
    simp [DockerFsHandler.Usage, he]
  · intro v hv hlt
    simp [DockerFsHandler.Usage, hv, Nat.mod_eq_of_lt hlt]
  · intro e he
    simp [DockerFsHandler.Usage, he]

/-- Witness for the corrector overlay theorem, Scenario B: baseline
1000/2000/5 and a thin-pool answer of 500000 for device pool-dev-1 give the
corrected snapshot 500000/502000/5. -/
theorem dockerFsHandler_usage_overlay_witness :
    DockerFsHandler.Usage
        ⟨⟨1000, 2000, 5⟩, some (fun _ => .ok 500000), "pool-dev-1", none, ""⟩ =
      ⟨500000, 502000, 5⟩ :=
  (dockerFsHandler_usage_overlay ⟨1000, 2000, 5⟩ "pool-dev-1" ""
    (fun _ => .ok 500000)).1 500000 rfl (by norm_num [uint64Mod])

/-- Helper: a successful getFsStats call never changes the network
sub-record of the stats sample — it only appends a filesystem sub-record. -/
theorem getFsStats_network_invariant (self : DockerContainerHandler)
    (machineInfo : Except String MachineInfo)
    (dirFsDevice : String → Except String String)
    (stats st : ContainerStats)
    (h : self.getFsStats machineInfo dirFsDevice stats = some (.ok st)) :
    st.network = stats.network := by
  obtain ⟨net, fsl⟩ := stats
  unfold DockerContainerHandler.getFsStats at h
  repeat' split at h
  all_goals simp_all
  all_goals (subst h; rfl)

/-- Claim C4: a docker handler whose container shares another container's
network namespace (container: network mode) reports a zero-valued network
sub-record from every successful GetStats call, whatever the libcontainer
collaborator, the machine inventory and the device resolver returned. -/
theorem getStats_zeroes_network_when_shared_namespace
    (self : DockerContainerHandler) (libStats : Except String ContainerStats)
    (machineInfo : Except String MachineInfo)
    (dirFsDevice : String → Except String String) (st : ContainerStats)
    (hmode : networkModeIsContainer self.networkMode = true)
    (hok : self.GetStats libStats machineInfo dirFsDevice = some (.ok st)) :
    st.network = NetworkStats.zero := by
  have hneed : self.needNet = false := by
    unfold DockerContainerHandler.needNet
    rw [hmode]
    split <;> simp
  cases libStats with
  | error e => simp [DockerContainerHandler.GetStats] at hok
  | ok stats =>
    obtain ⟨net, fsl⟩ := stats
    simp only [DockerContainerHandler.GetStats, hneed, Bool.not_false,
      if_true] at hok
    have := getFsStats_network_invariant self machineInfo dirFsDevice
      ⟨{}, fsl⟩ st hok
    simpa [NetworkStats.zero] using this

/-- Witness for the shared-namespace zeroing theorem: a handler in
container:abc network mode whose libcontainer stats carried non-zero network
counters yields a zeroed network sub-record. -/
theorem getStats_zeroes_network_when_shared_namespace_witness :
    (ContainerStats.mk ⟨0, 0⟩ []).network = NetworkStats.zero :=
  getStats_zeroes_network_when_shared_namespace
    ⟨"", 0, "container:abc", [], "", "", .overlay2, none, "",
      ⟨"", "", [], ""⟩, [], [], ""⟩
    (.ok ⟨⟨5, 7⟩, []⟩) (.ok ⟨[]⟩) (fun _ => .ok "") ⟨⟨0, 0⟩, []⟩
    (by decide) rfl

/-- Claim C10: the network sub-record is also zeroed whenever network-usage
metrics are disabled, even for a container owning its network namespace:
every successful GetStats call then returns a zero network record. -/
theorem getStats_zeroes_network_without_network_metrics
    (self : DockerContainerHandler) (libStats : Except String ContainerStats)
    (machineInfo : Except String MachineInfo)
    (dirFsDevice : String → Except String String) (st : ContainerStats)
    (hmet : self.includedMetrics.contains .networkUsage = false)
    (hok : self.GetStats libStats machineInfo dirFsDevice = some (.ok st)) :
    st.network = NetworkStats.zero := by
  have hneed : self.needNet = false := by
    unfold DockerContainerHandler.needNet
    rw [hmet]
    simp
  cases libStats with
  | error e => simp [DockerContainerHandler.GetStats] at hok
  | ok stats =>
    obtain ⟨net, fsl⟩ := stats
    simp only [DockerContainerHandler.GetStats, hneed, Bool.not_false,
      if_true] at hok
    have := getFsStats_network_invariant self machineInfo dirFsDevice
      ⟨{}, fsl⟩ st hok
    simpa [NetworkStats.zero] using this

/-- Witness for the disabled-network-metrics zeroing theorem: a handler with
an own network namespace (empty mode string) but no network-usage metric
still reports a zero network sub-record. -/
theorem getStats_zeroes_network_without_network_metrics_witness :
    (ContainerStats.mk ⟨0, 0⟩ []).network = NetworkStats.zero :=
  getStats_zeroes_network_without_network_metrics
    ⟨"", 0, "", [.diskIo], "", "", .overlay2, none, "",
      ⟨"", "", [], ""⟩, [], [], ""⟩
    (.ok ⟨⟨5, 7⟩, []⟩) (.ok ⟨[]⟩) (fun _ => .ok "") ⟨⟨0, 0⟩, []⟩
    (by decide) rfl

/-- Claim C8: per-poll failures of the optional overlay sources and a
missing machine-inventory match never fail the stats call.  For every
handler with disk-usage metrics enabled, whichever of the thin-pool and
copy-on-write (zfs) watchers are configured, if every configured watcher's
usage query errors then the overlay is skipped (base and total usage stay at
the sampler baseline); and for every resolved accounting device — the pool
name for devicemapper, the device reported for the writable-layer directory
of aufs/overlay/overlay2, or the zfs parent dataset — that matches no
filesystem in the machine inventory, the filesystem record is still
produced with zero capacity limit and empty type, and GetStats succeeds. -/
theorem getStats_tolerates_per_poll_failures
    (self : DockerContainerHandler) (s : ContainerStats) (mi : MachineInfo)
    (fsh : DockerFsHandler) (device : String)
    (dirFsDevice : String → Except String String)
    (hmet : self.includedMetrics.contains .diskUsage = true)
    (hfs : self.fsHandler = some fsh)
    (htp : ∀ w, fsh.thinPoolWatcher = some w →
       ∃ e, w fsh.deviceID = .error e)
    (hzf : ∀ w, fsh.zfsWatcher = some w →
       ∃ e, w fsh.zfsFilesystem = .error e)
    (hdev : (self.storageDriver = .devicemapper ∧ device = self.poolName) ∨
            ((self.storageDriver = .aufs ∨ self.storageDriver = .overlay ∨
              self.storageDriver = .overlay2) ∧
             dirFsDevice self.rootfsStorageDir = .ok device) ∨
            (self.storageDriver = .zfs ∧ device = self.zfsParent))
    (hnomatch : ∀ f ∈ mi.filesystems, f.device ≠ device) :
    self.GetStats (.ok s) (.ok mi) dirFsDevice =
      some (.ok { network := if !self.needNet then {} else s.network,
                  filesystem := s.filesystem ++
                    [⟨device, "", 0, fsh.fsHandler.baseUsageBytes,
                      fsh.fsHandler.totalUsageBytes,
                      fsh.fsHandler.inodeUsage⟩] }) := by
  obtain ⟨snet, sfsl⟩ := s
  have husage : fsh.Usage = fsh.fsHandler := by
    obtain ⟨Bv, tpw, devID, zw, zfp⟩ := fsh
    obtain ⟨b, t, i⟩ := Bv
    cases tpw with
    | none =>
      cases zw with
      | none => simp [DockerFsHandler.Usage]
      | some w =>
        obtain ⟨e, he⟩ := hzf w rfl
        simp [DockerFsHandler.Usage, he]
    | some w =>
      obtain ⟨e, he⟩ := htp w rfl
      cases zw with
      | none => simp [DockerFsHandler.Usage, he]
      | some w2 =>
        obtain ⟨e2, he2⟩ := hzf w2 rfl
        simp [DockerFsHandler.Usage, he, he2]
  have hfind : mi.filesystems.find? (fun f => decide (f.device = device))
      = none := by
    rw [List.find?_eq_none]
    intro f hf
    simpa using hnomatch f hf
  rcases hdev with ⟨hd, hdev⟩ | ⟨hd, hdd⟩ | ⟨hd, hdev⟩
  · subst hdev
    cases hnn : self.needNet <;>
      simp [DockerContainerHandler.GetStats, DockerContainerHandler.getFsStats,
        hd, hmet, hfs, hfind, husage, hnn]
  · rcases hd with hd | hd | hd <;>
      cases hnn : self.needNet <;>
        simp [DockerContainerHandler.GetStats, DockerContainerHandler.getFsStats,
          hd, hdd, hmet, hfs, hfind, husage, hnn]
  · subst hdev
    cases hnn : self.needNet <;>
      simp [DockerContainerHandler.GetStats, DockerContainerHandler.getFsStats,
        hd, hmet, hfs, hfind, husage, hnn]

/-- Witness for the per-poll failure tolerance theorem: a zfs handler whose
copy-on-write watcher query fails and whose parent dataset matches no
inventory filesystem still produces a successful stats sample carrying the
baseline usage and a zero-limit, empty-type filesystem record. -/
theorem getStats_tolerates_per_poll_failures_witness :
    DockerContainerHandler.GetStats
      ⟨"", 0, "", [.diskUsage], "", "zpool/docker", .zfs,
        some ⟨⟨1000, 2000, 5⟩, none, "d1", some (fun _ => .error "nope"),
          "zpool/docker/m1"⟩,
        "", ⟨"", "", [], ""⟩, [], [], ""⟩
      (.ok ⟨⟨1, 2⟩, []⟩) (.ok ⟨[⟨"other", "ext4", 100⟩]⟩) (fun _ => .ok "") =
      some (.ok ⟨⟨0, 0⟩, [⟨"zpool/docker", "", 0, 1000, 2000, 5⟩]⟩) :=
  getStats_tolerates_per_poll_failures
    ⟨"", 0, "", [.diskUsage], "", "zpool/docker", .zfs,
      some ⟨⟨1000, 2000, 5⟩, none, "d1", some (fun _ => .error "nope"),
        "zpool/docker/m1"⟩,
      "", ⟨"", "", [], ""⟩, [], [], ""⟩
    ⟨⟨1, 2⟩, []⟩ ⟨[⟨"other", "ext4", 100⟩]⟩
    ⟨⟨1000, 2000, 5⟩, none, "d1", some (fun _ => .error "nope"),
      "zpool/docker/m1"⟩
    "zpool/docker" (fun _ => .ok "")
    (by decide) rfl (fun w h => nomatch h)
    (fun w h => by cases h; exact ⟨"nope", rfl⟩)
    (Or.inr (Or.inr ⟨rfl, rfl⟩)) (by decide)

/-- Claim C7: docker handler construction is atomic with respect to failure.
If the control-plane inspection of the container errors, or inspection
succeeds but the reported creation timestamp does not parse, then
newDockerContainerHandler produces an error and no handler value, whatever
the remaining oracles and parameters are. -/
theorem newDockerContainerHandler_error_on_uninspectable
    (nameToId : String → String) (fileRead : String → Option String)
    (inspect : String → Except String InspectResult)
    (parseTime : String → Option Int) (zfsStatusParent : Except String String)
    (name : String) (sd : StorageDriver) (storageDir : String)
    (inHostNamespace : Bool) (metadataEnvs : List String)
    (dockerVersion : DockerVersion) (includedMetrics : MetricSet)
    (thinPoolName : String)
    (thinPoolWatcher zfsWatcher : Option (String → Except String Nat)) :
    (∀ e, inspect (nameToId name) = .error e →
       exceptIsOk (newDockerContainerHandler nameToId fileRead inspect
         parseTime zfsStatusParent name sd storageDir inHostNamespace
         metadataEnvs dockerVersion includedMetrics thinPoolName
         thinPoolWatcher zfsWatcher) = false) ∧
    (∀ c, inspect (nameToId name) = .ok c → parseTime c.created = none →
       exceptIsOk (newDockerContainerHandler nameToId fileRead inspect
         parseTime zfsStatusParent name sd storageDir inHostNamespace
         metadataEnvs dockerVersion includedMetrics thinPoolName
         thinPoolWatcher zfsWatcher) = false) := by
  constructor
  · intro e he
    simp only [newDockerContainerHandler]
    split
    · rfl
    · split
      · rfl
      · rw [he]
        rfl
  · intro c hc hparse
    simp only [newDockerContainerHandler]
    split
    · rfl
    · split
      · rfl
      · rw [hc]
        simp only [exceptIsOk, hparse]

/-- Witness for the construction-atomicity theorem: a control plane whose
inspection always fails yields an error result from construction. -/
theorem newDockerContainerHandler_error_on_uninspectable_witness :
    exceptIsOk (newDockerContainerHandler (fun _ => "abc123")
      (fun _ => some "m1") (fun _ => .error "no such container")
      (fun _ => some 0) (.ok "") "/docker/abc123" .overlay2 "/var/lib/docker"
      true [] ⟨1, 11⟩ [] "" none none) = false :=
  (newDockerContainerHandler_error_on_uninspectable (fun _ => "abc123")
    (fun _ => some "m1") (fun _ => .error "no such container")
    (fun _ => some 0) (.ok "") "/docker/abc123" .overlay2 "/var/lib/docker"
    true [] ⟨1, 11⟩ [] "" none none).1 "no such container" rfl

/-- Claim C1, counterexample: for the aufs driver the code places the
writable subdirectory name before the mount identifier.  A successful
construction with mount identifier m1 yields the directory
/var/lib/docker/aufs/diff/m1, which differs from the claimed join order
storageRoot/driver/mountId/subdirectory. -/
theorem aufs_layout_counterexample :
    (newDockerContainerHandler (fun _ => "abc123") (fun _ => some "m1")
        (fun _ => .ok ⟨"ts", "/c1", "img", [], [], 0, "", "", ""⟩)
        (fun _ => some 7) (.ok "") "/docker/abc123" .aufs "/var/lib/docker"
        true [] ⟨1, 11⟩ [] "" none none).toOption.map
      (fun hh => hh.rootfsStorageDir) = some "/var/lib/docker/aufs/diff/m1" ∧
    "/var/lib/docker/aufs/diff/m1" ≠ "/var/lib/docker/aufs/m1/diff" :=
  ⟨rfl, by decide⟩

/-- Claim C1 (amended): the writable-layer directory computed at handler
construction joins the storage root, the driver name, the mount identifier
and the writable-subdirectory name for overlay (subdirectory upper) and
overlay2 (subdirectory diff) — in particular
storageRoot/overlay2/mountId/diff — while for aufs the subdirectory diff
precedes the mount identifier: storageRoot/aufs/diff/mountId. -/
theorem rootfs_storage_dir_per_driver_layout
    (nameToId : String → String) (fileRead : String → Option String)
    (inspect : String → Except String InspectResult)
    (parseTime : String → Option Int) (zfsStatusParent : Except String String)
    (name storageDir : String) (sd : StorageDriver)
    (metadataEnvs : List String) (dockerVersion : DockerVersion)
    (includedMetrics : MetricSet) (thinPoolName : String)
    (thinPoolWatcher zfsWatcher : Option (String → Except String Nat))
    (rwid : String) (h : DockerContainerHandler)
    (hrw : getRwLayerID fileRead (nameToId name) storageDir sd dockerVersion
        = .ok rwid)
    (hok : newDockerContainerHandler nameToId fileRead inspect parseTime
        zfsStatusParent name sd storageDir true metadataEnvs dockerVersion
        includedMetrics thinPoolName thinPoolWatcher zfsWatcher = .ok h) :
    (sd = .aufs →
       h.rootfsStorageDir = pathJoin [storageDir, "aufs", aufsRWLayer, rwid]) ∧
    (sd = .overlay →
       h.rootfsStorageDir = pathJoin [storageDir, "overlay", rwid, overlayRWLayer]) ∧
    (sd = .overlay2 →
       h.rootfsStorageDir = pathJoin [storageDir, "overlay2", rwid, overlay2RWLayer]) := by
  refine ⟨?_, ?_, ?_⟩
  all_goals intro hsd
  all_goals subst hsd
  all_goals simp only [newDockerContainerHandler] at hok
  all_goals repeat' split at hok
  all_goals simp_all [rwLayerDirs, StorageDriver.toString, aufsRWLayer,
    overlayRWLayer, overlay2RWLayer]
  all_goals (subst hok; rfl)

/-- Witness for the per-driver layout theorem, Scenario A: overlay2 with
mount identifier m1 read from the layerdb mapping file yields the writable
layer directory /var/lib/docker/overlay2/m1/diff. -/
theorem rootfs_storage_dir_per_driver_layout_witness :
    ("/var/lib/docker/overlay2/m1/diff" : String) =
      pathJoin ["/var/lib/docker", "overlay2", "m1", overlay2RWLayer] :=
  (rootfs_storage_dir_per_driver_layout (fun _ => "abc123")
    (fun _ => some "m1")
    (fun _ => .ok ⟨"ts", "/c1", "img", [], [], 0, "", "", ""⟩)
    (fun _ => some 7) (.ok "") "/docker/abc123" "/var/lib/docker" .overlay2
    [] ⟨1, 11⟩ [] "" none none "m1"
    ⟨"/var/lib/docker/overlay2/m1/diff", 7, "", [], "", "", .overlay2, none,
      "", ⟨"abc123", "/docker/abc123", ["c1", "abc123"], "docker"⟩, [], [],
      "img"⟩
    rfl rfl).2.2 rfl
